import Mathlib

/-!
Verification of the heterogeneous-device data transfer engine
(`GPUDataTransfer` in `onnxruntime/core/providers/cuda/gpu_data_transfer.cc`).

The CUDA runtime calls are modelled as recorded operations: `CopyTensor`
returns the status the dispatcher would produce together with the list of
copy primitives it issues, given an environment `CudaEnv` assigning to each
device call the `cudaError_t` code the runtime reports (0 is `cudaSuccess`).
Stream creation is modelled as allocating fresh distinct descriptors, as
`cudaStreamCreateWithFlags` returns a fresh stream on each call.
-/

namespace GpuDataTransfer

/-- Device kind of `OrtDevice`: the dispatcher only distinguishes `CPU` and `GPU`
(the specification CPU / ACCELERATOR). -/
inductive DeviceType where
  | CPU
  | GPU
deriving DecidableEq, Repr

/-- Memory kind of `OrtDevice`: plain memory or CUDA pinned host memory
(the specification DEFAULT / PINNED_HOST). -/
inductive MemKind where
  | DEFAULT
  | CUDA_PINNED
deriving DecidableEq, Repr

/-- Model of `OrtDevice`: device kind, memory kind and device index. -/
structure OrtDevice where
  type : DeviceType
  memType : MemKind
  id : Nat
deriving DecidableEq, Repr

/-- The relevant view of a `Tensor`: its location device, its raw data
address, and its size in bytes. -/
structure Tensor where
  device : OrtDevice
  address : Nat
  sizeBytes : Nat
deriving DecidableEq, Repr

/-- Stream indices used by the engine, from `cuda_common.h`:
`kCudaStreamDefault`, `kCudaStreamCopyIn`, `kCudaStreamCopyOut`
(the specification DEFAULT / INBOUND / OUTBOUND tags). -/
inductive CudaStreamId where
  | kCudaStreamDefault
  | kCudaStreamCopyIn
  | kCudaStreamCopyOut
deriving DecidableEq, Repr

/-- A created CUDA stream: its fresh identity and the flag it was created
with (`cudaStreamNonBlocking`). -/
structure StreamDesc where
  sid : Nat
  nonBlocking : Bool
deriving DecidableEq, Repr

/-- A stream slot of `streams_`: `none` models the `nullptr` sentinel
("use the device default stream"), `some s` a dedicated created stream. -/
abbrev Handle := Option StreamDesc

/-- The `streams_` array of `GPUDataTransfer`, indexed by stream id. -/
structure GPUDataTransfer where
  streams : CudaStreamId → Handle

/-- The `GPUDataTransfer(bool do_copy_in_default_stream)` constructor:
the default slot is `nullptr`; with `do_copy_in_default_stream` the copy
slots are also `nullptr`, otherwise two fresh non-blocking streams are
created with `cudaStreamCreateWithFlags(..., cudaStreamNonBlocking)`. -/
def GPUDataTransfer.init (do_copy_in_default_stream : Bool) : GPUDataTransfer :=
  if do_copy_in_default_stream then
    { streams := fun _ => none }
  else
    { streams := fun i =>
        match i with
        | .kCudaStreamDefault => none
        | .kCudaStreamCopyIn => some ⟨0, true⟩
        | .kCudaStreamCopyOut => some ⟨1, true⟩ }

/-- Direction argument of the CUDA copy primitives. -/
inductive MemcpyKind where
  | HostToDevice
  | DeviceToHost
  | DeviceToDevice
deriving DecidableEq, Repr

/-- A copy primitive issued by the dispatcher: an asynchronous
`cudaMemcpyAsync` on a stream, a synchronous `cudaMemcpy`, or a plain host
`memcpy`. -/
inductive CopyOp where
  | cudaMemcpyAsync (dst src bytes : Nat) (kind : MemcpyKind) (stream : Handle)
  | cudaMemcpy (dst src bytes : Nat) (kind : MemcpyKind)
  | memcpy (dst src bytes : Nat)
deriving DecidableEq, Repr

/-- Whether the primitive blocks the calling thread for the copy duration:
`cudaMemcpy` and host `memcpy` do, `cudaMemcpyAsync` does not. -/
def CopyOp.blocks : CopyOp → Bool
  | .cudaMemcpyAsync _ _ _ _ _ => false
  | .cudaMemcpy _ _ _ _ => true
  | .memcpy _ _ _ => true

/-- Whether the primitive is a device-runtime call returning a
`cudaError_t` (host `memcpy` is not). -/
def CopyOp.isDevice : CopyOp → Bool
  | .cudaMemcpyAsync _ _ _ _ _ => true
  | .cudaMemcpy _ _ _ _ => true
  | .memcpy _ _ _ => false

/-- Number of bytes the primitive transfers. -/
def CopyOp.bytes : CopyOp → Nat
  | .cudaMemcpyAsync _ _ b _ _ => b
  | .cudaMemcpy _ _ b _ => b
  | .memcpy _ _ b => b

/-- Environment: the `cudaError_t` code the runtime reports for each device
call; 0 is `cudaSuccess`. -/
abbrev CudaEnv := CopyOp → Nat

/-- Model of `common::Status`: success or a failure carrying the device status code. -/
inductive Status where
  | ok
  | cudaError (code : Nat)
deriving DecidableEq, Repr

/-- Model of `CUDA_RETURN_IF_ERROR(call)` followed by `return Status::OK()`: issues
the call and propagates a non-success code verbatim. -/
def cudaReturnIfError (env : CudaEnv) (op : CopyOp) : Status × List CopyOp :=
  if env op = 0 then (Status.ok, [op]) else (Status.cudaError (env op), [op])

/-- Model of `GPUDataTransfer::CanCopy`: at least one side is GPU or CUDA-pinned. -/
def CanCopy (src_device dst_device : OrtDevice) : Bool :=
  decide (src_device.type = DeviceType.GPU) ||
  decide (src_device.memType = MemKind.CUDA_PINNED) ||
  decide (dst_device.type = DeviceType.GPU) ||
  decide (dst_device.memType = MemKind.CUDA_PINNED)

/-- Model of `GPUDataTransfer::CopyTensor`, translated branch for branch from the
source: returns the `Status` and the list of copy primitives issued. -/
def CopyTensor (this : GPUDataTransfer) (env : CudaEnv) (src dst : Tensor)
    (exec_queue_id : CudaStreamId) : Status × List CopyOp :=
  let bytes := src.sizeBytes
  let src_data := src.address
  let dst_data := dst.address
  let src_device := src.device
  let dst_device := dst.device
  if dst_device.type = DeviceType.GPU then
    if src_device.type = DeviceType.CPU ∧ src_device.memType = MemKind.CUDA_PINNED then
      cudaReturnIfError env
        (.cudaMemcpyAsync dst_data src_data bytes .HostToDevice (this.streams exec_queue_id))
    else if src_device.type = DeviceType.GPU then
      if dst_data ≠ src_data then
        cudaReturnIfError env
          (.cudaMemcpyAsync dst_data src_data bytes .DeviceToDevice
            (this.streams CudaStreamId.kCudaStreamDefault))
      else
        (Status.ok, [])
    else
      cudaReturnIfError env (.cudaMemcpy dst_data src_data bytes .HostToDevice)
  else if src_device.type = DeviceType.GPU then
    if dst_device.type = DeviceType.CPU ∧ dst_device.memType = MemKind.CUDA_PINNED then
      cudaReturnIfError env
        (.cudaMemcpyAsync dst_data src_data bytes .DeviceToHost (this.streams exec_queue_id))
    else
      cudaReturnIfError env (.cudaMemcpy dst_data src_data bytes .DeviceToHost)
  else
    (Status.ok, [.memcpy dst_data src_data bytes])

/-- Model of the destructor of `GPUDataTransfer`: destroys the copy-in and copy-out
streams when non-null, in that order. The environment of destroy results is
ignored (`CUDA_CALL` logs and discards failures), so it does not influence
the destroy calls issued and no status is returned. -/
def destructor (this : GPUDataTransfer) (_destroyEnv : StreamDesc → Nat) : List StreamDesc :=
  (match this.streams CudaStreamId.kCudaStreamCopyIn with
   | some s => [s]
   | none => []) ++
  (match this.streams CudaStreamId.kCudaStreamCopyOut with
   | some s => [s]
   | none => [])

/-- Shared fixture: a plain CPU device. -/
def cpuDev : OrtDevice := ⟨DeviceType.CPU, MemKind.DEFAULT, 0⟩

/-- Shared fixture: a CUDA-pinned host device. -/
def pinnedDev : OrtDevice := ⟨DeviceType.CPU, MemKind.CUDA_PINNED, 0⟩

/-- Shared fixture: a GPU device. -/
def gpuDev : OrtDevice := ⟨DeviceType.GPU, MemKind.DEFAULT, 0⟩

/-- Shared fixture: an environment in which every device call succeeds. -/
def env0 : CudaEnv := fun _ => 0

/-- The ops issued by `CUDA_RETURN_IF_ERROR` do not depend on the reported
status. -/
theorem cudaReturnIfError_ops (env : CudaEnv) (op : CopyOp) :
    (cudaReturnIfError env op).2 = [op] := by
  unfold cudaReturnIfError
  split <;> rfl

/-- The status produced by `CUDA_RETURN_IF_ERROR`. -/
theorem cudaReturnIfError_fst (env : CudaEnv) (op : CopyOp) :
    (cudaReturnIfError env op).1 =
      if env op = 0 then Status.ok else Status.cudaError (env op) := by
  unfold cudaReturnIfError
  split <;> simp_all

/-- The specification six-way case analysis over the two locations, in its stated
priority order (written from the specification words, to be compared with
`CopyTensor`). -/
def specCase (src_device dst_device : OrtDevice) : Nat :=
  if dst_device.type = DeviceType.GPU then
    if src_device.type = DeviceType.CPU ∧ src_device.memType = MemKind.CUDA_PINNED then 1
    else if src_device.type = DeviceType.GPU then 2
    else 3
  else if src_device.type = DeviceType.GPU then
    if dst_device.type = DeviceType.CPU ∧ dst_device.memType = MemKind.CUDA_PINNED then 4
    else 5
  else 6

/-- A transfer mode, as the spec names them. -/
inductive Mode where
  | asyncH2D
  | asyncD2D
  | skipped
  | syncH2D
  | asyncD2H
  | syncD2H
  | hostCopy
  | other
deriving DecidableEq, Repr

/-- The mode an issued operation list realizes. -/
def modeOf : List CopyOp → Mode
  | [] => .skipped
  | [.cudaMemcpyAsync _ _ _ .HostToDevice _] => .asyncH2D
  | [.cudaMemcpyAsync _ _ _ .DeviceToDevice _] => .asyncD2D
  | [.cudaMemcpyAsync _ _ _ .DeviceToHost _] => .asyncD2H
  | [.cudaMemcpy _ _ _ .HostToDevice] => .syncH2D
  | [.cudaMemcpy _ _ _ .DeviceToHost] => .syncD2H
  | [.memcpy _ _ _] => .hostCopy
  | _ => .other

/-- The mode the spec prescribes for each case number; an aliased
device-to-device transfer (case 2) is skipped. -/
def specMode (c : Nat) (aliased : Bool) : Mode :=
  match c with
  | 1 => .asyncH2D
  | 2 => if aliased then .skipped else .asyncD2D
  | 3 => .syncH2D
  | 4 => .asyncD2H
  | 5 => .syncD2H
  | _ => .hostCopy

/-- C1: `CopyTensor` realizes the specification six-way case analysis in its
priority order — destination-GPU cases first (pinned source asynchronous,
GPU source asynchronous, otherwise synchronous blocking host-to-device),
then source-GPU cases (pinned destination asynchronous, otherwise
synchronous blocking device-to-host), otherwise a plain synchronous host
byte copy with no stream — and the issued work blocks the caller exactly
in cases 3, 5 and 6. -/
theorem copyTensor_case_analysis (this : GPUDataTransfer) (env : CudaEnv)
    (src dst : Tensor) (q : CudaStreamId) :
    modeOf (CopyTensor this env src dst q).2 =
      specMode (specCase src.device dst.device) (decide (dst.address = src.address)) ∧
    (((CopyTensor this env src dst q).2.any CopyOp.blocks) = true ↔
      (specCase src.device dst.device = 3 ∨ specCase src.device dst.device = 5 ∨
        specCase src.device dst.device = 6)) := by
  obtain ⟨⟨st, sm, sid⟩, saddr, ssize⟩ := src
  obtain ⟨⟨dt, dm, did⟩, daddr, dsize⟩ := dst
  cases st <;> cases dt <;> cases sm <;> cases dm <;>
    simp only [CopyTensor, specCase, specMode] <;>
    by_cases h : daddr = saddr <;>
    simp [h, modeOf, CopyOp.blocks, cudaReturnIfError_ops]

/-- Closed instance of C1: a plain-CPU-to-GPU request is dispatched as
case 3, a synchronous blocking host-to-device copy. -/
theorem copyTensor_case_analysis_witness :
    modeOf (CopyTensor (GPUDataTransfer.init true) env0 ⟨cpuDev, 1000, 16⟩
        ⟨gpuDev, 2000, 16⟩ CudaStreamId.kCudaStreamCopyIn).2 =
      specMode (specCase cpuDev gpuDev) (decide ((2000 : Nat) = 1000)) ∧
    (((CopyTensor (GPUDataTransfer.init true) env0 ⟨cpuDev, 1000, 16⟩
        ⟨gpuDev, 2000, 16⟩ CudaStreamId.kCudaStreamCopyIn).2.any CopyOp.blocks) = true ↔
      (specCase cpuDev gpuDev = 3 ∨ specCase cpuDev gpuDev = 5 ∨
        specCase cpuDev gpuDev = 6)) :=
  copyTensor_case_analysis (GPUDataTransfer.init true) env0 ⟨cpuDev, 1000, 16⟩
    ⟨gpuDev, 2000, 16⟩ CudaStreamId.kCudaStreamCopyIn

/-- C2: `CanCopy` holds iff one of the four conditions holds, and is false
whenever neither side is GPU nor CUDA-pinned. -/
theorem canCopy_iff (src_device dst_device : OrtDevice) :
    (CanCopy src_device dst_device = true ↔
      (src_device.type = DeviceType.GPU ∨ src_device.memType = MemKind.CUDA_PINNED ∨
        dst_device.type = DeviceType.GPU ∨ dst_device.memType = MemKind.CUDA_PINNED)) ∧
    ((src_device.type ≠ DeviceType.GPU ∧ src_device.memType ≠ MemKind.CUDA_PINNED ∧
      dst_device.type ≠ DeviceType.GPU ∧ dst_device.memType ≠ MemKind.CUDA_PINNED) →
      CanCopy src_device dst_device = false) := by
  constructor
  · simp [CanCopy]
    tauto
  · intro h
    simp [CanCopy]
    tauto

/-- Closed instance of C2: two plain CPU devices are not serviceable. -/
theorem canCopy_iff_witness : CanCopy cpuDev cpuDev = false :=
  (canCopy_iff cpuDev cpuDev).2 (by decide)

/-- Counterexample to C3: with dedicated copy streams, a pinned-host to
GPU copy requested with queue id `kCudaStreamCopyOut` is issued on the
stream of the outbound slot, which is a different handle from the one the
pool maps to the inbound tag — the dispatcher indexes `streams_` by the
requested queue id, not by a direction-determined tag. -/
theorem copyStream_counterexample :
    (CopyTensor (GPUDataTransfer.init false) env0 ⟨pinnedDev, 1000, 16⟩
        ⟨gpuDev, 2000, 16⟩ CudaStreamId.kCudaStreamCopyOut).2 =
      [CopyOp.cudaMemcpyAsync 2000 1000 16 MemcpyKind.HostToDevice
        ((GPUDataTransfer.init false).streams CudaStreamId.kCudaStreamCopyOut)] ∧
    (GPUDataTransfer.init false).streams CudaStreamId.kCudaStreamCopyOut ≠
      (GPUDataTransfer.init false).streams CudaStreamId.kCudaStreamCopyIn := by
  constructor
  · rfl
  · decide

/-- C3 amended: the asynchronous pinned-host copies are issued on the
stream slot selected by the requested queue id (`streams_[exec_queue_id]`),
not on a fixed inbound/outbound tag; with `do_copy_in_default_stream` every
slot is the null handle, so the claimed stream choice holds exactly when
the caller passes the queue id matching the direction. -/
theorem copyStream_queue_id (b : Bool) (env : CudaEnv) (src dst : Tensor)
    (q : CudaStreamId) :
    (dst.device.type = DeviceType.GPU → src.device.type = DeviceType.CPU →
      src.device.memType = MemKind.CUDA_PINNED →
      (CopyTensor (GPUDataTransfer.init b) env src dst q).2 =
        [CopyOp.cudaMemcpyAsync dst.address src.address src.sizeBytes
          MemcpyKind.HostToDevice ((GPUDataTransfer.init b).streams q)]) ∧
    (src.device.type = DeviceType.GPU → dst.device.type = DeviceType.CPU →
      dst.device.memType = MemKind.CUDA_PINNED →
      (CopyTensor (GPUDataTransfer.init b) env src dst q).2 =
        [CopyOp.cudaMemcpyAsync dst.address src.address src.sizeBytes
          MemcpyKind.DeviceToHost ((GPUDataTransfer.init b).streams q)]) ∧
    (b = true → (GPUDataTransfer.init b).streams q = none) := by
  refine ⟨?_, ?_, ?_⟩
  · intro hd hs hm
    simp [CopyTensor, hd, hs, hm, cudaReturnIfError_ops]
  · intro hs hd hm
    simp [CopyTensor, hd, hs, hm, cudaReturnIfError_ops]
  · intro hb
    subst hb
    cases q <;> rfl

/-- Closed instance of the amended C3: a pinned-host to GPU copy with the
inbound queue id goes on the inbound slot. -/
theorem copyStream_queue_id_witness :
    (CopyTensor (GPUDataTransfer.init false) env0 ⟨pinnedDev, 1000, 16⟩
        ⟨gpuDev, 2000, 16⟩ CudaStreamId.kCudaStreamCopyIn).2 =
      [CopyOp.cudaMemcpyAsync 2000 1000 16 MemcpyKind.HostToDevice
        ((GPUDataTransfer.init false).streams CudaStreamId.kCudaStreamCopyIn)] :=
  (copyStream_queue_id false env0 ⟨pinnedDev, 1000, 16⟩ ⟨gpuDev, 2000, 16⟩
    CudaStreamId.kCudaStreamCopyIn).1 rfl rfl rfl

/-- C4: a device-to-device request whose destination address equals its
source address issues no copy primitive at all and returns success. -/
theorem copyTensor_aliased_noop (this : GPUDataTransfer) (env : CudaEnv)
    (src dst : Tensor) (q : CudaStreamId)
    (hs : src.device.type = DeviceType.GPU) (hd : dst.device.type = DeviceType.GPU)
    (ha : dst.address = src.address) :
    CopyTensor this env src dst q = (Status.ok, []) := by
  simp [CopyTensor, hs, hd, ha]

/-- Closed instance of C4: an aliased GPU-to-GPU request is a no-op
success. -/
theorem copyTensor_aliased_noop_witness :
    CopyTensor (GPUDataTransfer.init false) env0 ⟨gpuDev, 5000, 64⟩
      ⟨gpuDev, 5000, 64⟩ CudaStreamId.kCudaStreamDefault = (Status.ok, []) :=
  copyTensor_aliased_noop (GPUDataTransfer.init false) env0 ⟨gpuDev, 5000, 64⟩
    ⟨gpuDev, 5000, 64⟩ CudaStreamId.kCudaStreamDefault rfl rfl rfl

/-- C5: with `do_copy_in_default_stream = true` (the specification
`separateCopyStreams = false`) the inbound and outbound slots are the null
handle like the default slot; with `false` (separate copy streams) they
hold two distinct non-null non-blocking streams, both different from the
default slot; and the default slot is the null handle in every
configuration. -/
theorem streamPool_config :
    ((GPUDataTransfer.init true).streams CudaStreamId.kCudaStreamCopyIn = none ∧
      (GPUDataTransfer.init true).streams CudaStreamId.kCudaStreamCopyOut = none ∧
      (GPUDataTransfer.init true).streams CudaStreamId.kCudaStreamDefault = none) ∧
    (∃ sIn sOut : StreamDesc,
      (GPUDataTransfer.init false).streams CudaStreamId.kCudaStreamCopyIn = some sIn ∧
      (GPUDataTransfer.init false).streams CudaStreamId.kCudaStreamCopyOut = some sOut ∧
      sIn ≠ sOut ∧ sIn.nonBlocking = true ∧ sOut.nonBlocking = true ∧
      some sIn ≠ (GPUDataTransfer.init false).streams CudaStreamId.kCudaStreamDefault ∧
      some sOut ≠ (GPUDataTransfer.init false).streams CudaStreamId.kCudaStreamDefault) ∧
    (∀ b : Bool, (GPUDataTransfer.init b).streams CudaStreamId.kCudaStreamDefault = none) := by
  refine ⟨by decide, ⟨⟨0, true⟩, ⟨1, true⟩, by decide⟩, ?_⟩
  intro b
  cases b <;> rfl

/-- C6: a non-aliased device-to-device copy is issued on the default slot,
which the constructor sets to the null handle, for every configuration and
every queue id. -/
theorem deviceToDevice_default_stream (b : Bool) (env : CudaEnv)
    (src dst : Tensor) (q : CudaStreamId)
    (hs : src.device.type = DeviceType.GPU) (hd : dst.device.type = DeviceType.GPU)
    (ha : dst.address ≠ src.address) :
    (CopyTensor (GPUDataTransfer.init b) env src dst q).2 =
      [CopyOp.cudaMemcpyAsync dst.address src.address src.sizeBytes
        MemcpyKind.DeviceToDevice none] ∧
    (GPUDataTransfer.init b).streams CudaStreamId.kCudaStreamDefault = none := by
  have hdef : (GPUDataTransfer.init b).streams CudaStreamId.kCudaStreamDefault = none := by
    cases b <;> rfl
  refine ⟨?_, hdef⟩
  simp [CopyTensor, hs, hd, ha, cudaReturnIfError_ops, hdef]

/-- Closed instance of C6: a GPU-to-GPU copy between distinct addresses
under separate copy streams and an outbound queue id still goes on the
null default stream. -/
theorem deviceToDevice_default_stream_witness :
    (CopyTensor (GPUDataTransfer.init false) env0 ⟨gpuDev, 1000, 32⟩
        ⟨gpuDev, 2000, 32⟩ CudaStreamId.kCudaStreamCopyOut).2 =
      [CopyOp.cudaMemcpyAsync 2000 1000 32 MemcpyKind.DeviceToDevice none] ∧
    (GPUDataTransfer.init false).streams CudaStreamId.kCudaStreamDefault = none :=
  deviceToDevice_default_stream false env0 ⟨gpuDev, 1000, 32⟩ ⟨gpuDev, 2000, 32⟩
    CudaStreamId.kCudaStreamCopyOut rfl rfl (by decide)

/-- Counterexample to C7: a request with source size 100 and destination
size 200 still proceeds — the dispatcher checks no sizes, issues a copy of
the source 100 bytes and returns success. -/
theorem sizeMismatch_counterexample :
    CopyTensor (GPUDataTransfer.init true) env0 ⟨cpuDev, 1000, 100⟩
        ⟨gpuDev, 2000, 200⟩ CudaStreamId.kCudaStreamDefault =
      (Status.ok, [CopyOp.cudaMemcpy 2000 1000 100 MemcpyKind.HostToDevice]) := by
  rfl

/-- C7 amended: equal sizes are a caller obligation the dispatcher does
not check; `CopyTensor` reads only the source byte count, so its result
is unchanged under any destination size and every issued primitive
transfers exactly `src.sizeBytes` bytes — the copy is well-defined only
when the caller has ensured the two sizes are equal. -/
theorem copyTensor_src_size (this : GPUDataTransfer) (env : CudaEnv)
    (src dst : Tensor) (q : CudaStreamId) (n : Nat) :
    CopyTensor this env src dst q =
      CopyTensor this env src ⟨dst.device, dst.address, n⟩ q ∧
    (∀ op ∈ (CopyTensor this env src dst q).2, op.bytes = src.sizeBytes) := by
  refine ⟨rfl, ?_⟩
  obtain ⟨⟨st, sm, sid⟩, saddr, ssize⟩ := src
  obtain ⟨⟨dt, dm, did⟩, daddr, dsize⟩ := dst
  cases st <;> cases dt <;> cases sm <;> cases dm <;>
    by_cases h : daddr = saddr <;>
    simp [CopyTensor, h, cudaReturnIfError_ops, CopyOp.bytes]

/-- Closed instance of the amended C7: the single primitive issued for a
100-byte source and 200-byte destination moves the source 100 bytes. -/
theorem copyTensor_src_size_witness :
    CopyOp.bytes (CopyOp.memcpy 2000 1000 100) =
      (⟨cpuDev, 1000, 100⟩ : Tensor).sizeBytes :=
  (copyTensor_src_size (GPUDataTransfer.init true) env0 ⟨cpuDev, 1000, 100⟩
    ⟨cpuDev, 2000, 200⟩ CudaStreamId.kCudaStreamDefault 200).2
    (CopyOp.memcpy 2000 1000 100) (by decide)

/-- The status produced by a single `CUDA_RETURN_IF_ERROR` call: a
non-success code is returned verbatim, success continues to `Status::OK`. -/
theorem cudaReturnIfError_status (env : CudaEnv) (op : CopyOp) :
    (env op ≠ 0 → (cudaReturnIfError env op).1 = Status.cudaError (env op)) ∧
    (env op = 0 → (cudaReturnIfError env op).1 = Status.ok) := by
  unfold cudaReturnIfError
  constructor <;> intro h <;> simp [h]

/-- C8: when the runtime reports an error for the issued device primitive,
`CopyTensor` returns a failure carrying that code unmodified; when every
issued device call succeeds — including the aliased no-op and the plain
host-copy paths, which issue no device call — it returns success. -/
theorem copyTensor_status (this : GPUDataTransfer) (env : CudaEnv)
    (src dst : Tensor) (q : CudaStreamId) :
    (∀ op ∈ (CopyTensor this env src dst q).2, op.isDevice = true → env op ≠ 0 →
      (CopyTensor this env src dst q).1 = Status.cudaError (env op)) ∧
    ((∀ op ∈ (CopyTensor this env src dst q).2, op.isDevice = true → env op = 0) →
      (CopyTensor this env src dst q).1 = Status.ok) := by
  obtain ⟨⟨st, sm, sid⟩, saddr, ssize⟩ := src
  obtain ⟨⟨dt, dm, did⟩, daddr, dsize⟩ := dst
  cases st <;> cases dt <;> cases sm <;> cases dm <;>
    by_cases h : daddr = saddr <;>
    simp [CopyTensor, h, cudaReturnIfError, CopyOp.isDevice, apply_ite] <;>
    split_ifs <;> simp_all

/-- Shared fixture: an environment in which every device call fails with
code 7. -/
def envFail : CudaEnv := fun _ => 7

/-- Closed instance of C8: a failing synchronous host-to-device copy makes
`CopyTensor` return the device code 7 unmodified. -/
theorem copyTensor_status_witness :
    (CopyTensor (GPUDataTransfer.init true) envFail ⟨cpuDev, 1000, 16⟩
        ⟨gpuDev, 2000, 16⟩ CudaStreamId.kCudaStreamDefault).1 =
      Status.cudaError (envFail (CopyOp.cudaMemcpy 2000 1000 16 MemcpyKind.HostToDevice)) :=
  (copyTensor_status (GPUDataTransfer.init true) envFail ⟨cpuDev, 1000, 16⟩
    ⟨gpuDev, 2000, 16⟩ CudaStreamId.kCudaStreamDefault).1
    (CopyOp.cudaMemcpy 2000 1000 16 MemcpyKind.HostToDevice)
    (by decide) (by decide) (by decide)

/-- C9: over constructor-built pools, teardown destroys each non-null
stream slot exactly once and null slots never; only streams held in slots
are destroyed; and the destroy calls issued do not depend on the destroy
results the runtime reports — release failures are discarded, never
propagated, the destructor having no failure channel. -/
theorem destructor_releases (b : Bool) (denv denv2 : StreamDesc → Nat) :
    destructor (GPUDataTransfer.init b) denv = destructor (GPUDataTransfer.init b) denv2 ∧
    (∀ i : CudaStreamId, ∀ s : StreamDesc,
      (GPUDataTransfer.init b).streams i = some s →
      (destructor (GPUDataTransfer.init b) denv).count s = 1) ∧
    (∀ s ∈ destructor (GPUDataTransfer.init b) denv,
      ∃ i : CudaStreamId, (GPUDataTransfer.init b).streams i = some s) := by
  cases b
  · refine ⟨rfl, ?_, ?_⟩
    · intro i s h
      have hlist : destructor (GPUDataTransfer.init false) denv =
          [⟨0, true⟩, ⟨1, true⟩] := rfl
      rw [hlist]
      cases i <;> simp [GPUDataTransfer.init] at h <;> subst h <;> decide
    · intro s hs
      simp [destructor, GPUDataTransfer.init] at hs
      rcases hs with h | h <;> subst h
      · exact ⟨CudaStreamId.kCudaStreamCopyIn, rfl⟩
      · exact ⟨CudaStreamId.kCudaStreamCopyOut, rfl⟩
  · refine ⟨rfl, ?_, ?_⟩
    · intro i s h
      simp [GPUDataTransfer.init] at h
    · intro s hs
      simp [destructor, GPUDataTransfer.init] at hs

/-- Closed instance of C9: with separate copy streams, the inbound stream
is destroyed exactly once. -/
theorem destructor_releases_witness :
    (destructor (GPUDataTransfer.init false) (fun _ => 0)).count ⟨0, true⟩ = 1 :=
  (destructor_releases false (fun _ => 0) (fun _ => 0)).2.1
    CudaStreamId.kCudaStreamCopyIn ⟨0, true⟩ rfl

/-- C10: when neither side is GPU the dispatcher issues a plain host
`memcpy` of the source bytes and returns success whatever the queue id —
even for plain-CPU pairs that `CanCopy` rejects; the request is never
refused as ineligible. -/
theorem cpuToCpu_memcpy (this : GPUDataTransfer) (env : CudaEnv)
    (src dst : Tensor) (q : CudaStreamId)
    (hs : src.device.type ≠ DeviceType.GPU) (hd : dst.device.type ≠ DeviceType.GPU) :
    CopyTensor this env src dst q =
      (Status.ok, [CopyOp.memcpy dst.address src.address src.sizeBytes]) ∧
    (src.device.memType ≠ MemKind.CUDA_PINNED → dst.device.memType ≠ MemKind.CUDA_PINNED →
      CanCopy src.device dst.device = false) := by
  constructor
  · simp [CopyTensor, hs, hd]
  · intro h1 h2
    simp [CanCopy, hs, hd, h1, h2]

/-- Closed instance of C10: a plain CPU-to-CPU request, which `CanCopy`
rejects, is still serviced by a host `memcpy` and succeeds. -/
theorem cpuToCpu_memcpy_witness :
    CopyTensor (GPUDataTransfer.init true) env0 ⟨cpuDev, 1000, 24⟩
        ⟨cpuDev, 2000, 24⟩ CudaStreamId.kCudaStreamCopyOut =
      (Status.ok, [CopyOp.memcpy 2000 1000 24]) ∧
    CanCopy cpuDev cpuDev = false := by
  have h := cpuToCpu_memcpy (GPUDataTransfer.init true) env0 ⟨cpuDev, 1000, 24⟩
    ⟨cpuDev, 2000, 24⟩ CudaStreamId.kCudaStreamCopyOut (by decide) (by decide)
  exact ⟨h.1, h.2 (by decide) (by decide)⟩

end GpuDataTransfer
